import Mathlib

/-!
Verification of `ecosystem.config.js`.

The repository's only JavaScript file assigns one object literal to
`module.exports`.  The literal is built from string literals, array literals,
object literals and two reads of the process environment
(`process.env.PORT`, `process.env.SECRET_PASSWORD`).

The development below embeds exactly that fragment of JavaScript:

* `JsExpr` is the syntax of the literal, `source` is the literal itself;
* `JsValue` is the value it evaluates to, `eval` is evaluation under a
  process environment, `moduleExports` is the exported configuration;
* `apps`, `appName`, `appScript`, `appArgs`, `findApp` read the exported value
  the way a consumer of the configuration does.
-/

namespace EcosystemConfig

/-! ## Values and expressions -/

/-- JavaScript values that the module can produce. -/
inductive JsValue where
  | undefined
  | str (s : String)
  | arr (items : List JsValue)
  | obj (props : List (String × JsValue))

/-- Expressions that occur in `ecosystem.config.js`. -/
inductive JsExpr where
  /-- A string literal `"..."`. -/
  | strLit (s : String)
  /-- A read of the process environment, `process.env.KEY`. -/
  | envMember (key : String)
  /-- An array literal `[e, ...]`. -/
  | arrLit (items : List JsExpr)
  /-- An object literal `{ key: e, ... }`, properties in source order. -/
  | objLit (props : List (String × JsExpr))

/-- The process environment `process.env`: a variable that is not set reads as
`none`, a variable that is set reads as its string value. -/
abbrev ProcessEnv := String → Option String

/-- Value of `process.env.KEY`: the string when the variable is set,
`undefined` otherwise. -/
def JsValue.ofOption : Option String → JsValue
  | some s => .str s
  | none => .undefined

/-- Defines property `k` on a property list: an existing property keeps its
position and takes the new value, a new property is appended. -/
def setProp (ps : List (String × JsValue)) (k : String) (v : JsValue) :
    List (String × JsValue) :=
  match ps with
  | [] => [(k, v)]
  | (k', v') :: rest =>
    if k' = k then (k', v) :: rest else (k', v') :: setProp rest k v

mutual
/-- Evaluation of an expression under the process environment `E`. -/
def eval (E : ProcessEnv) : JsExpr → JsValue
  | .strLit s => .str s
  | .envMember k => JsValue.ofOption (E k)
  | .arrLit xs => .arr (evalItems E xs)
  | .objLit ps => .obj (evalProps E ps [])
/-- Evaluation of the elements of an array literal, left to right. -/
def evalItems (E : ProcessEnv) : List JsExpr → List JsValue
  | [] => []
  | x :: xs => eval E x :: evalItems E xs
/-- Evaluation of the properties of an object literal, in source order, each
one defined on the object built so far. -/
def evalProps (E : ProcessEnv) :
    List (String × JsExpr) → List (String × JsValue) → List (String × JsValue)
  | [], acc => acc
  | (k, x) :: ps, acc => evalProps E ps (setProp acc k (eval E x))
end

/-! ## The module -/

/-- The object literal assigned to `module.exports`. -/
def source : JsExpr :=
  .objLit [
    ("apps", .arrLit [
      .objLit [
        ("name", .strLit "eval_client"),
        ("script", .strLit "sudo"),
        ("args", .arrLit [.strLit "-E", .strLit "python", .strLit "-u",
          .strLit "/home/xilinx/.external_comms/eval_client.py"]),
        ("env", .objLit [
          ("PORT", .envMember "PORT"),
          ("SECRET_PASSWORD", .envMember "SECRET_PASSWORD")])],
      .objLit [
        ("name", .strLit "game_engine"),
        ("script", .strLit "sudo"),
        ("args", .arrLit [.strLit "-E", .strLit "python", .strLit "-u",
          .strLit "/home/xilinx/.external_comms/game_engine.py"])],
      .objLit [
        ("name", .strLit "ai_server"),
        ("script", .strLit "sudo"),
        ("args", .arrLit [.strLit "-E", .strLit "python", .strLit "-u",
          .strLit "/home/xilinx/.external_comms/ai_server.py"])]])]

/-- The configuration exported by the module when it is loaded under the
process environment `E`. -/
def moduleExports (E : ProcessEnv) : JsValue :=
  eval E source

/-! ## Reading values -/

/-- Own property `k` of an object; `none` when the value is not an object or
has no such property (a property whose value is `undefined` is present). -/
def JsValue.get? (v : JsValue) (k : String) : Option JsValue :=
  match v with
  | .obj ps => (ps.find? (fun p => p.1 == k)).map Prod.snd
  | _ => none

/-- Whether the value is an object with an own property `k`. -/
def JsValue.hasOwn (v : JsValue) (k : String) : Bool :=
  (v.get? k).isSome

/-- Own property names of an object, in definition order. -/
def JsValue.keys : JsValue → List String
  | .obj ps => ps.map Prod.fst
  | _ => []

/-- The string held by a string value. -/
def JsValue.asStr? : JsValue → Option String
  | .str s => some s
  | _ => none

/-- The elements of an array value. -/
def JsValue.asArr? : JsValue → Option (List JsValue)
  | .arr xs => some xs
  | _ => none

/-- The elements of an array value all of whose elements are strings. -/
def JsValue.asStrList? (v : JsValue) : Option (List String) :=
  match v with
  | .arr xs => xs.mapM JsValue.asStr?
  | _ => none

/-- Replaces own property `k` of an object (other values are left alone). -/
def JsValue.set (v : JsValue) (k : String) (x : JsValue) : JsValue :=
  match v with
  | .obj ps => .obj (setProp ps k x)
  | other => other

/-- The entries of a configuration's `apps` array. -/
def apps (cfg : JsValue) : List JsValue :=
  ((cfg.get? "apps").bind JsValue.asArr?).getD []

/-- The `name` of an entry, when it is a string. -/
def appName (a : JsValue) : Option String :=
  (a.get? "name").bind JsValue.asStr?

/-- The `script` of an entry, when it is a string. -/
def appScript (a : JsValue) : Option String :=
  (a.get? "script").bind JsValue.asStr?

/-- The `args` of an entry, when it is an array of strings. -/
def appArgs (a : JsValue) : Option (List String) :=
  (a.get? "args").bind JsValue.asStrList?

/-- The first entry of `apps` with the given name. -/
def findApp (cfg : JsValue) (name : String) : Option JsValue :=
  (apps cfg).find? (fun a => appName a == some name)

/-- The value an entry's `env` object gives to `key`. -/
def appEnvGet (a : JsValue) (key : String) : Option JsValue :=
  (a.get? "env").bind (fun env => env.get? key)

/-! ## Reading the source -/

/-- Elements of an array literal. -/
def JsExpr.items : JsExpr → List JsExpr
  | .arrLit xs => xs
  | _ => []

/-- Properties of an object literal. -/
def JsExpr.props : JsExpr → List (String × JsExpr)
  | .objLit ps => ps
  | _ => []

/-- The expression an object literal gives for property `k`. -/
def JsExpr.prop? (e : JsExpr) (k : String) : Option JsExpr :=
  (e.props.find? (fun p => p.1 == k)).map Prod.snd

/-- Whether an expression is a string literal. -/
def JsExpr.isStrLit : JsExpr → Bool
  | .strLit _ => true
  | _ => false

/-- The entries of the `apps` array literal of the source. -/
def appDecls : List JsExpr :=
  ((source.prop? "apps").map JsExpr.items).getD []

/-- The properties of the `env` object literal of an entry (none when the
entry has no `env`). -/
def envDecls (a : JsExpr) : List (String × JsExpr) :=
  ((a.prop? "env").map JsExpr.props).getD []

/-! ## Overwriting the injected values -/

/-- Overwrites the values of `PORT` and `SECRET_PASSWORD` in an entry's `env`
object; an entry without `env` is left alone. -/
def overwriteEnv (a port secret : JsValue) : JsValue :=
  match a.get? "env" with
  | some env => a.set "env" ((env.set "PORT" port).set "SECRET_PASSWORD" secret)
  | none => a

/-- Overwrites the values of `PORT` and `SECRET_PASSWORD` in the `env` object
of the entries named `eval_client`, and nothing else. -/
def overwriteEvalClientEnv (cfg port secret : JsValue) : JsValue :=
  cfg.set "apps" (.arr ((apps cfg).map (fun a =>
    if appName a = some "eval_client" then overwriteEnv a port secret else a)))

/-! ## Shell-sensitive characters -/

/-- Characters a shell gives a meaning to: the two quotes, `$`, `;`, `|`, `&`,
`<`, `>`, `*` and the backtick. -/
def shellMeta : List Char :=
  [Char.ofNat 34, Char.ofNat 39, '$', ';', '|', '&', '<', '>', '*', Char.ofNat 96]

/-- Whether a string has neither whitespace nor a shell metacharacter. -/
def shellSafe (s : String) : Bool :=
  s.data.all (fun c => !c.isWhitespace && !shellMeta.contains c)

/-! ## Sample inputs -/

/-- A process environment that sets both variables the module reads. -/
def envBoth : ProcessEnv := fun k =>
  if k = "PORT" then some "8888"
  else if k = "SECRET_PASSWORD" then some "hunter2"
  else none

/-- A process environment that sets the same two variables to the same values
as `envBoth`, and `HOME` besides. -/
def envBothHome : ProcessEnv := fun k =>
  if k = "PORT" then some "8888"
  else if k = "SECRET_PASSWORD" then some "hunter2"
  else if k = "HOME" then some "/home/xilinx"
  else none

/-- The `game_engine` entry as a value. -/
def gameEngineEntry : JsValue :=
  .obj [
    ("name", .str "game_engine"),
    ("script", .str "sudo"),
    ("args", .arr [.str "-E", .str "python", .str "-u",
      .str "/home/xilinx/.external_comms/game_engine.py"])]

/-! ## Shape of the exported configuration -/

/-- The entries of the exported configuration: three objects, the first with
the two environment reads filled in from `E`. -/
theorem apps_moduleExports (E : ProcessEnv) :
    apps (moduleExports E) =
      [ .obj [
          ("name", .str "eval_client"),
          ("script", .str "sudo"),
          ("args", .arr [.str "-E", .str "python", .str "-u",
            .str "/home/xilinx/.external_comms/eval_client.py"]),
          ("env", .obj [
            ("PORT", JsValue.ofOption (E "PORT")),
            ("SECRET_PASSWORD", JsValue.ofOption (E "SECRET_PASSWORD"))])],
        gameEngineEntry,
        .obj [
          ("name", .str "ai_server"),
          ("script", .str "sudo"),
          ("args", .arr [.str "-E", .str "python", .str "-u",
            .str "/home/xilinx/.external_comms/ai_server.py"])]] :=
  rfl

/-- The exported configuration is an object whose only property is `apps`. -/
theorem moduleExports_eq (E : ProcessEnv) :
    moduleExports E = .obj [("apps", .arr (apps (moduleExports E)))] :=
  rfl

/-- The `game_engine` entry is an entry of every exported configuration. -/
theorem gameEngineEntry_mem (E : ProcessEnv) :
    gameEngineEntry ∈ apps (moduleExports E) := by
  rw [apps_moduleExports]
  exact List.Mem.tail _ (List.Mem.head _)

/-! ## Claims -/

/-- C1: under every process environment the exported `apps` list has exactly
three entries, named in order `eval_client`, `game_engine`, `ai_server`, and
every entry has a `script` (a string) and an `args` (an array of strings). -/
theorem apps_three_named_entries (E : ProcessEnv) :
    (apps (moduleExports E)).length = 3 ∧
    (apps (moduleExports E)).map appName =
      [some "eval_client", some "game_engine", some "ai_server"] ∧
    ∀ a ∈ apps (moduleExports E),
      (∃ s, appScript a = some s) ∧ (∃ l, appArgs a = some l) := by
  refine ⟨rfl, rfl, ?_⟩
  intro a ha
  rw [apps_moduleExports] at ha
  simp only [List.mem_cons, List.mem_singleton, List.not_mem_nil, or_false] at ha
  rcases ha with rfl | rfl | rfl <;> exact ⟨⟨_, rfl⟩, ⟨_, rfl⟩⟩

/-- Witness for C1 at the `game_engine` entry under `envBoth`. -/
theorem apps_three_named_entries_witness :
    gameEngineEntry ∈ apps (moduleExports envBoth) ∧
    (∃ s, appScript gameEngineEntry = some s) ∧
    (∃ l, appArgs gameEngineEntry = some l) :=
  ⟨gameEngineEntry_mem envBoth,
    (apps_three_named_entries envBoth).2.2 gameEngineEntry (gameEngineEntry_mem envBoth)⟩

/-- C2: under every process environment `E` the `env` object of the
`eval_client` entry gives `PORT` the value of `process.env.PORT` under `E` and
`SECRET_PASSWORD` the value of `process.env.SECRET_PASSWORD` under `E`, which
is the variable's string when `E` sets it and `undefined` when it does not;
and in the source, whose `apps` entries evaluate to the exported entries, no
property of any entry's `env` is given by a string literal. -/
theorem env_values_from_process_env (E : ProcessEnv) :
    ((findApp (moduleExports E) "eval_client").bind (fun a => appEnvGet a "PORT") =
        some (JsValue.ofOption (E "PORT")) ∧
      (findApp (moduleExports E) "eval_client").bind
          (fun a => appEnvGet a "SECRET_PASSWORD") =
        some (JsValue.ofOption (E "SECRET_PASSWORD"))) ∧
    ((∀ s, JsValue.ofOption (some s) = JsValue.str s) ∧
      JsValue.ofOption none = JsValue.undefined) ∧
    (evalItems E appDecls = apps (moduleExports E) ∧
      appDecls.map (fun a => (envDecls a).map Prod.fst) =
        [["PORT", "SECRET_PASSWORD"], [], []] ∧
      ∀ a ∈ appDecls, ∀ p ∈ envDecls a, p.2.isStrLit = false) :=
  ⟨⟨rfl, rfl⟩, ⟨fun _ => rfl, rfl⟩, ⟨rfl, rfl, by decide⟩⟩

/-- C3: under every process environment every entry of `apps` has a name that
is not the empty string, and entries at different positions of `apps` have
different names. -/
theorem names_nonempty_and_distinct (E : ProcessEnv) :
    (∀ a ∈ apps (moduleExports E), ∃ n, appName a = some n ∧ n ≠ "") ∧
    (apps (moduleExports E)).Pairwise (fun a b => appName a ≠ appName b) := by
  constructor
  · intro a ha
    rw [apps_moduleExports] at ha
    simp only [List.mem_cons, List.mem_singleton, List.not_mem_nil, or_false] at ha
    rcases ha with rfl | rfl | rfl <;> exact ⟨_, rfl, by decide⟩
  · have h : ((apps (moduleExports E)).map appName).Pairwise (fun x y => x ≠ y) := by
      show List.Pairwise (fun x y => x ≠ y)
        [some "eval_client", some "game_engine", some "ai_server"]
      decide
    exact List.pairwise_map.1 h

/-- Witness for C3 at the `game_engine` entry under `envBoth`. -/
theorem names_nonempty_and_distinct_witness :
    gameEngineEntry ∈ apps (moduleExports envBoth) ∧
    ∃ n, appName gameEngineEntry = some n ∧ n ≠ "" :=
  ⟨gameEngineEntry_mem envBoth,
    (names_nonempty_and_distinct envBoth).1 gameEngineEntry (gameEngineEntry_mem envBoth)⟩

/-- C4: for any two process environments the two exported configurations have
the same number of entries, with the same names, scripts and argument lists in
the same order; overwriting the values of `PORT` and `SECRET_PASSWORD` in the
`env` of `eval_client` turns the one into the other; and when the two
environments agree on `PORT` and on `SECRET_PASSWORD` the two configurations
are equal. -/
theorem static_up_to_injected_values (E1 E2 : ProcessEnv) :
    (apps (moduleExports E1)).length = (apps (moduleExports E2)).length ∧
    (apps (moduleExports E1)).map appName = (apps (moduleExports E2)).map appName ∧
    (apps (moduleExports E1)).map appScript = (apps (moduleExports E2)).map appScript ∧
    (apps (moduleExports E1)).map appArgs = (apps (moduleExports E2)).map appArgs ∧
    overwriteEvalClientEnv (moduleExports E1)
        (JsValue.ofOption (E2 "PORT")) (JsValue.ofOption (E2 "SECRET_PASSWORD")) =
      moduleExports E2 ∧
    (E1 "PORT" = E2 "PORT" → E1 "SECRET_PASSWORD" = E2 "SECRET_PASSWORD" →
      moduleExports E1 = moduleExports E2) := by
  refine ⟨rfl, rfl, rfl, rfl, rfl, ?_⟩
  intro hp hs
  rw [moduleExports_eq E1, moduleExports_eq E2, apps_moduleExports, apps_moduleExports,
    hp, hs]

/-- Witness for C4: `envBoth` and `envBothHome` differ at `HOME`, agree on
`PORT` and `SECRET_PASSWORD`, and export the same configuration. -/
theorem static_up_to_injected_values_witness :
    envBoth "HOME" ≠ envBothHome "HOME" ∧
    envBoth "PORT" = envBothHome "PORT" ∧
    envBoth "SECRET_PASSWORD" = envBothHome "SECRET_PASSWORD" ∧
    moduleExports envBoth = moduleExports envBothHome :=
  ⟨by decide, by decide, by decide,
    (static_up_to_injected_values envBoth envBothHome).2.2.2.2.2 (by decide) (by decide)⟩

/-- C5: under every process environment every entry of `apps` has `script`
equal to `sudo` and `args` equal to the four-element list
`-E`, `python`, `-u`, `p` for some path `p`. -/
theorem every_entry_sudo_wrapped (E : ProcessEnv) (a : JsValue)
    (ha : a ∈ apps (moduleExports E)) :
    appScript a = some "sudo" ∧ ∃ p, appArgs a = some ["-E", "python", "-u", p] := by
  rw [apps_moduleExports] at ha
  simp only [List.mem_cons, List.mem_singleton, List.not_mem_nil, or_false] at ha
  rcases ha with rfl | rfl | rfl <;> exact ⟨rfl, _, rfl⟩

/-- Witness for C5 at the `game_engine` entry under `envBoth`. -/
theorem every_entry_sudo_wrapped_witness :
    gameEngineEntry ∈ apps (moduleExports envBoth) ∧
    appScript gameEngineEntry = some "sudo" ∧
    ∃ p, appArgs gameEngineEntry = some ["-E", "python", "-u", p] :=
  ⟨gameEngineEntry_mem envBoth,
    every_entry_sudo_wrapped envBoth gameEngineEntry (gameEngineEntry_mem envBoth)⟩

/-- C8: under every process environment every entry of `apps` has a string
`script` and an `args` that is an array of separate strings and not a string,
and neither `script` nor any element of `args` contains whitespace or a shell
metacharacter. -/
theorem no_shell_interpretation_needed (E : ProcessEnv) (a : JsValue)
    (ha : a ∈ apps (moduleExports E)) :
    (a.get? "args").bind JsValue.asStr? = none ∧
    ∃ s l, appScript a = some s ∧ appArgs a = some l ∧
      shellSafe s = true ∧ ∀ x ∈ l, shellSafe x = true := by
  rw [apps_moduleExports] at ha
  simp only [List.mem_cons, List.mem_singleton, List.not_mem_nil, or_false] at ha
  rcases ha with rfl | rfl | rfl <;>
    exact ⟨rfl, _, _, rfl, rfl, by decide, by decide⟩

/-- Witness for C8 at the `game_engine` entry under `envBoth`. -/
theorem no_shell_interpretation_needed_witness :
    gameEngineEntry ∈ apps (moduleExports envBoth) ∧
    (gameEngineEntry.get? "args").bind JsValue.asStr? = none ∧
    ∃ s l, appScript gameEngineEntry = some s ∧ appArgs gameEngineEntry = some l ∧
      shellSafe s = true ∧ ∀ x ∈ l, shellSafe x = true :=
  ⟨gameEngineEntry_mem envBoth,
    no_shell_interpretation_needed envBoth gameEngineEntry (gameEngineEntry_mem envBoth)⟩

/-- C9: under every process environment the `env` of the `eval_client` entry
has exactly the keys `PORT` and `SECRET_PASSWORD`, also under the environment
that sets no variable, and `eval_client` is the only entry with an `env`
property: `game_engine` and `ai_server` have none. -/
theorem env_only_on_eval_client (E : ProcessEnv) :
    ((findApp (moduleExports E) "eval_client").bind (fun a => a.get? "env")).map
        JsValue.keys = some ["PORT", "SECRET_PASSWORD"] ∧
    ((findApp (moduleExports (fun _ => none)) "eval_client").bind
        (fun a => a.get? "env")).map JsValue.keys = some ["PORT", "SECRET_PASSWORD"] ∧
    (findApp (moduleExports E) "game_engine").map (fun a => a.hasOwn "env") =
      some false ∧
    (findApp (moduleExports E) "ai_server").map (fun a => a.hasOwn "env") =
      some false ∧
    (apps (moduleExports E)).map (fun a => (appName a, a.hasOwn "env")) =
      [(some "eval_client", true), (some "game_engine", false),
        (some "ai_server", false)] :=
  ⟨rfl, rfl, rfl, rfl, rfl⟩

/-- C10: under every process environment the last element of every entry's
`args` is `/home/xilinx/.external_comms/` followed by the entry's name and
`.py`, and entries at different positions of `apps` have different last
elements of `args`. -/
theorem script_path_matches_name (E : ProcessEnv) :
    (∀ a ∈ apps (moduleExports E), ∃ n l, appName a = some n ∧ appArgs a = some l ∧
      l.getLast? = some ("/home/xilinx/.external_comms/" ++ n ++ ".py")) ∧
    (apps (moduleExports E)).Pairwise (fun a b =>
      (appArgs a).bind List.getLast? ≠ (appArgs b).bind List.getLast?) := by
  constructor
  · intro a ha
    rw [apps_moduleExports] at ha
    simp only [List.mem_cons, List.mem_singleton, List.not_mem_nil, or_false] at ha
    rcases ha with rfl | rfl | rfl <;> exact ⟨_, _, rfl, rfl, by decide⟩
  · have h : ((apps (moduleExports E)).map
        (fun a => (appArgs a).bind List.getLast?)).Pairwise (fun x y => x ≠ y) := by
      show List.Pairwise (fun x y => x ≠ y)
        [some "/home/xilinx/.external_comms/eval_client.py",
          some "/home/xilinx/.external_comms/game_engine.py",
          some "/home/xilinx/.external_comms/ai_server.py"]
      decide
    exact List.pairwise_map.1 h

/-- Witness for C10 at the `game_engine` entry under `envBoth`. -/
theorem script_path_matches_name_witness :
    gameEngineEntry ∈ apps (moduleExports envBoth) ∧
    ∃ n l, appName gameEngineEntry = some n ∧ appArgs gameEngineEntry = some l ∧
      l.getLast? = some ("/home/xilinx/.external_comms/" ++ n ++ ".py") :=
  ⟨gameEngineEntry_mem envBoth,
    (script_path_matches_name envBoth).1 gameEngineEntry (gameEngineEntry_mem envBoth)⟩

end EcosystemConfig
